import Mathlib

/-
Shallow embedding of src/src/libsync/progressdispatcher.cpp (namespace OCC).

Machine counters (quint64) are modelled as Nat: the quantities involved are
file counts and byte sizes of a single sync run, far below 2^64, and every
mutation in the source either increments or clamps, so no wrap-around is
reachable.  IEEE doubles are modelled as exact rationals (ℚ).  The class
declarations (struct layout, default constructors, ProgressInfo::isSizeDependent)
live in progressdispatcher.h, which is not part of this source tree; those
parts are modelled from the spec and marked as such.
-/

/-- The csync instruction codes, as enumerated by the switch statements of
Progress::asResultString and Progress::asActionString in the source. -/
inductive CSyncInstruction where
  | CSYNC_INSTRUCTION_NONE
  | CSYNC_INSTRUCTION_EVAL
  | CSYNC_INSTRUCTION_REMOVE
  | CSYNC_INSTRUCTION_RENAME
  | CSYNC_INSTRUCTION_EVAL_RENAME
  | CSYNC_INSTRUCTION_NEW
  | CSYNC_INSTRUCTION_CONFLICT
  | CSYNC_INSTRUCTION_IGNORE
  | CSYNC_INSTRUCTION_SYNC
  | CSYNC_INSTRUCTION_STAT_ERROR
  | CSYNC_INSTRUCTION_ERROR
deriving DecidableEq, Repr

/-- The fields of SyncFileItem that progressdispatcher.cpp reads: path key,
byte size, directory flag, planned instruction, and the affected-item count
used by ProgressInfo::setProgressComplete. -/
structure SyncFileItem where
  _file : String
  _size : Nat
  _isDirectory : Bool
  _instruction : CSyncInstruction
  _affectedItems : Nat
deriving DecidableEq, Repr

/-- Modelled from the spec: the default-constructed SyncFileItem that
ProgressInfo::setProgressItem stores into _lastCompletedItem (the class
definition is in the missing header progressdispatcher.h): an empty item with
empty path, zero size, and the no-op instruction. -/
def SyncFileItem.empty : SyncFileItem :=
  { _file := "", _size := 0, _isDirectory := false,
    _instruction := CSyncInstruction.CSYNC_INSTRUCTION_NONE, _affectedItems := 1 }

/-- ProgressInfo::Progress: one rate estimator over a monotonic counter.
Counters are quint64 in the source, the smoothed rate and the ramp factor are
doubles. -/
structure Progress where
  _total : Nat
  _completed : Nat
  _prevCompleted : Nat
  _progressPerSec : ℚ
  _initialSmoothing : ℚ
deriving DecidableEq, Repr

/-- Modelled from the spec: the initial estimator state declared in the missing
header: counters and smoothed rate start at 0, the ramp factor
(_initialSmoothing) starts at 1.0. -/
def Progress.init : Progress :=
  { _total := 0, _completed := 0, _prevCompleted := 0,
    _progressPerSec := 0, _initialSmoothing := 1 }

/-- Modelled from the spec: ProgressInfo::Estimates, the snapshot pair of an
estimated bandwidth (units per second) and an estimated ETA in milliseconds.
The struct is declared in the missing header; its fields are kept as exact
rationals standing for the values the source computes in double precision. -/
structure Estimates where
  estimatedBandwidth : ℚ
  estimatedEta : ℚ
deriving DecidableEq, Repr

/-- ProgressInfo::Progress::estimates (progressdispatcher.cpp:302). -/
def Progress.estimates (p : Progress) : Estimates :=
  { estimatedBandwidth := p._progressPerSec,
    estimatedEta :=
      if p._progressPerSec ≠ 0 then
        ((p._total - p._completed : Nat) : ℚ) / p._progressPerSec * 1000
      else 0 }

/-- ProgressInfo::Progress::remaining (progressdispatcher.cpp:319). -/
def Progress.remaining (p : Progress) : Nat := p._total - p._completed

/-- ProgressInfo::Progress::update (progressdispatcher.cpp:324): the once-per-
second smoothing tick.  The smoothing weight is computed from the ramp value
current at the tick, then the ramp is multiplied by 0.7. -/
def Progress.update (p : Progress) : Progress :=
  let smoothing : ℚ := 9/10 * (1 - p._initialSmoothing)
  { p with
      _initialSmoothing := p._initialSmoothing * (7/10),
      _progressPerSec := smoothing * p._progressPerSec
        + (1 - smoothing) * ((p._completed - p._prevCompleted : Nat) : ℚ),
      _prevCompleted := p._completed }

/-- ProgressInfo::Progress::setCompleted (progressdispatcher.cpp:340). -/
def Progress.setCompleted (p : Progress) (completed : Nat) : Progress :=
  { p with
      _completed := min completed p._total,
      _prevCompleted := min p._prevCompleted (min completed p._total) }

/-- Modelled from the spec: ProgressInfo::isSizeDependent is declared in the
missing header.  Per the spec glossary a work unit is size-dependent when it
is a plain file (not a directory) with a real transfer operation; the transfer
operations are exactly the instructions grouped as downloading/uploading by
Progress::asActionString in the source (CONFLICT, SYNC, NEW). -/
def isSizeDependent (item : SyncFileItem) : Bool :=
  !item._isDirectory &&
    (item._instruction == CSyncInstruction.CSYNC_INSTRUCTION_CONFLICT
      || item._instruction == CSyncInstruction.CSYNC_INSTRUCTION_SYNC
      || item._instruction == CSyncInstruction.CSYNC_INSTRUCTION_NEW)

/-- ProgressInfo::ProgressItem: an in-flight work unit with its own estimator. -/
structure ProgressItem where
  _item : SyncFileItem
  _progress : Progress
deriving DecidableEq, Repr

/-- Modelled from the spec: the default ProgressItem that QHash operator[]
inserts for a missing key (default-constructed members). -/
def ProgressItem.init : ProgressItem :=
  { _item := SyncFileItem.empty, _progress := Progress.init }

/-- The ProgressInfo aggregator state.  _currentItems models the QHash of
in-flight items as an association list keyed by path; the sums it feeds are
commutative, so hash ordering is irrelevant. -/
structure ProgressInfo where
  _currentItems : List (String × ProgressItem)
  _fileProgress : Progress
  _sizeProgress : Progress
  _totalSizeOfCompletedJobs : Nat
  _lastCompletedItem : SyncFileItem
  _maxFilesPerSecond : ℚ
  _maxBytesPerSecond : ℚ
deriving DecidableEq, Repr

/-- Modelled from the spec: a fresh aggregator with empty in-flight set, zero
totals and zero peak rates. -/
def ProgressInfo.init : ProgressInfo :=
  { _currentItems := [], _fileProgress := Progress.init,
    _sizeProgress := Progress.init, _totalSizeOfCompletedJobs := 0,
    _lastCompletedItem := SyncFileItem.empty,
    _maxFilesPerSecond := 0, _maxBytesPerSecond := 0 }

/-- QHash::remove on the association list. -/
def removeKey (l : List (String × ProgressItem)) (k : String) :
    List (String × ProgressItem) :=
  l.filter (fun p => !(p.fst == k))

/-- QHash operator[] used as an lvalue: update the entry at the key, inserting
the default-constructed entry first when the key is absent. -/
def upsertItem (l : List (String × ProgressItem)) (k : String)
    (f : ProgressItem → ProgressItem) : List (String × ProgressItem) :=
  if l.any (fun p => p.fst == k) then
    l.map (fun p => if p.fst == k then (p.fst, f p.snd) else p)
  else l ++ [(k, f ProgressItem.init)]

/-- The loop body of ProgressInfo::recomputeCompletedSize: the sum of the
completed bytes of the size-dependent in-flight items. -/
def inFlightCompleted (l : List (String × ProgressItem)) : Nat :=
  (l.map (fun p => if isSizeDependent p.snd._item then p.snd._progress._completed else 0)).sum

/-- ProgressInfo::adjustTotalsForFile (progressdispatcher.cpp:139). -/
def ProgressInfo.adjustTotalsForFile (s : ProgressInfo) (item : SyncFileItem) :
    ProgressInfo :=
  if !item._isDirectory then
    let s1 := { s with _fileProgress :=
        { s._fileProgress with _total := s._fileProgress._total + 1 } }
    if isSizeDependent item then
      { s1 with _sizeProgress :=
          { s1._sizeProgress with _total := s1._sizeProgress._total + item._size } }
    else s1
  else if item._instruction ≠ CSyncInstruction.CSYNC_INSTRUCTION_NONE then
    { s with _fileProgress :=
        { s._fileProgress with _total := s._fileProgress._total + 1 } }
  else s

/-- ProgressInfo::recomputeCompletedSize (progressdispatcher.cpp:292). -/
def ProgressInfo.recomputeCompletedSize (s : ProgressInfo) : ProgressInfo :=
  { s with _sizeProgress :=
      (s._sizeProgress.setCompleted
        (s._totalSizeOfCompletedJobs + inFlightCompleted s._currentItems)) }

/-- ProgressInfo::setProgressComplete (progressdispatcher.cpp:177). -/
def ProgressInfo.setProgressComplete (s : ProgressInfo) (item : SyncFileItem) :
    ProgressInfo :=
  let s1 := { s with _currentItems := removeKey s._currentItems item._file }
  let s2 := { s1 with _fileProgress :=
      (s1._fileProgress.setCompleted (s1._fileProgress._completed + item._affectedItems)) }
  let s3 :=
    if isSizeDependent item then
      { s2 with _totalSizeOfCompletedJobs := s2._totalSizeOfCompletedJobs + item._size }
    else s2
  let s4 := s3.recomputeCompletedSize
  { s4 with _lastCompletedItem := item }

/-- ProgressInfo::setProgressItem (progressdispatcher.cpp:188). -/
def ProgressInfo.setProgressItem (s : ProgressInfo) (item : SyncFileItem)
    (completed : Nat) : ProgressInfo :=
  let s1 := { s with _currentItems :=
      (upsertItem s._currentItems item._file (fun it =>
        { _item := item,
          _progress := Progress.setCompleted { it._progress with _total := item._size } completed })) }
  let s2 := s1.recomputeCompletedSize
  { s2 with _lastCompletedItem := SyncFileItem.empty }

/-- ProgressInfo::updateEstimates (progressdispatcher.cpp:274): the 1 Hz tick. -/
def ProgressInfo.updateEstimates (s : ProgressInfo) : ProgressInfo :=
  let s1 := { s with
      _sizeProgress := s._sizeProgress.update,
      _fileProgress := s._fileProgress.update,
      _currentItems :=
        (s._currentItems.map
          (fun (p : String × ProgressItem) =>
            (p.fst, { p.snd with _progress := p.snd._progress.update }))) }
  { s1 with
      _maxFilesPerSecond := max s1._fileProgress._progressPerSec s1._maxFilesPerSecond,
      _maxBytesPerSecond := max s1._sizeProgress._progressPerSec s1._maxBytesPerSecond }

/-- ProgressInfo::fileProgress (progressdispatcher.cpp:269): const QHash
operator[] looks the key up and yields a default-constructed value when it is
absent, without inserting anything. -/
def ProgressInfo.fileProgress (s : ProgressInfo) (item : SyncFileItem) : Estimates :=
  ((List.lookup item._file s._currentItems).getD ProgressItem.init)._progress.estimates

/-- A division as the source performs it on doubles.  At a zero divisor the
IEEE result is non-finite and its subsequent conversion to quint64 has no
defined value, so the embedding makes the whole computation undefined (none)
exactly when a division with zero divisor is reached. -/
def qdiv (a b : ℚ) : Option ℚ := if b = 0 then none else some (a / b)

/-- qBound(lo, v, hi) = qMax(lo, qMin(hi, v)) from Qt, on rationals. -/
def qBound (lo v hi : ℚ) : ℚ := max lo (min hi v)

/-- Conversion of a double to quint64 as in the assignment to the local
optimisticEta: truncation toward zero.  The values arising there are
nonnegative, where truncation and floor agree. -/
def truncToNat (q : ℚ) : Nat := (⌊q⌋).toNat

/-- ProgressInfo::totalProgress (progressdispatcher.cpp:199).  The source
divides by _maxFilesPerSecond and _maxBytesPerSecond unconditionally whenever
the byte total is non-zero; via qdiv the result is none exactly when one of
those divisions is reached with a zero divisor. -/
def ProgressInfo.totalProgress (s : ProgressInfo) : Option Estimates :=
  let file := s._fileProgress.estimates
  if s._sizeProgress._total = 0 then some file
  else
    let size := s._sizeProgress.estimates
    (qdiv (s._fileProgress.remaining : ℚ) s._maxFilesPerSecond).bind fun dFile =>
    (qdiv (s._sizeProgress.remaining : ℚ) s._maxBytesPerSecond).bind fun dSize =>
    let optimisticEta : Nat := truncToNat (dFile * 1000 + dSize * 1000)
    let fps := s._fileProgress._progressPerSec
    let fpsL : ℚ := 1/2
    let fpsU : ℚ := 4/5
    (qdiv (fps - fpsL * s._maxFilesPerSecond) ((fpsU - fpsL) * s._maxFilesPerSecond)).bind fun rFps =>
    let nearMaxFps := qBound 0 rFps 1
    let trans := s._sizeProgress._progressPerSec
    let transU : ℚ := 1/10
    let transL : ℚ := 1/100
    (qdiv (trans - transL * s._maxBytesPerSecond) ((transU - transL) * s._maxBytesPerSecond)).bind fun rTrans =>
    let slowTransfer := 1 - qBound 0 rTrans 1
    let beOptimistic := nearMaxFps * slowTransfer
    some { size with estimatedEta :=
      (1 - beOptimistic) * size.estimatedEta + beOptimistic * (optimisticEta : ℚ) }

/-- ProgressDispatcher::setProgressInfo (progressdispatcher.cpp:116): an empty
folder key suppresses the update, otherwise the progressInfo signal is
emitted.  Modelled from the spec: the Qt signal fan-out delivers the pair to
every registered observer synchronously, in registration order; the function
returns the list of deliveries. -/
def ProgressDispatcher.setProgressInfo {α : Type} (observers : List α)
    (folder : String) (progress : ProgressInfo) : List (α × String × ProgressInfo) :=
  if folder.isEmpty then [] else observers.map (fun o => (o, folder, progress))

/-- The operations a client may perform on one rate estimator.  Modelled from
the spec: setTotal only ever increases the total (the source mutates _total
directly, by increments, during planning in adjustTotalsForFile); setCompleted
and tick are Progress::setCompleted and Progress::update. -/
inductive ProgressOp where
  | setTotal (amount : Nat)
  | setCompleted (n : Nat)
  | tick
deriving DecidableEq, Repr

/-- Interpretation of one ProgressOp on an estimator state. -/
def applyOp (p : Progress) : ProgressOp → Progress
  | ProgressOp.setTotal amount => { p with _total := p._total + amount }
  | ProgressOp.setCompleted n => p.setCompleted n
  | ProgressOp.tick => p.update

/-- Interpretation of a sequence of estimator operations. -/
def runOps (p : Progress) (ops : List ProgressOp) : Progress :=
  ops.foldl applyOp p

/-- The estimator invariant of the spec: completed never exceeds the total and
the previous-completed snapshot never exceeds completed. -/
def ProgressInv (p : Progress) : Prop :=
  p._completed ≤ p._total ∧ p._prevCompleted ≤ p._completed

/-- The optimistic ETA exactly as claim C2 words it, with no truncation:
remainingFiles / maxFilesPerSecond * 1000 + remainingBytes / maxBytesPerSecond
* 1000. -/
def optimisticEtaSpec (s : ProgressInfo) : ℚ :=
  (s._fileProgress.remaining : ℚ) / s._maxFilesPerSecond * 1000
    + (s._sizeProgress.remaining : ℚ) / s._maxBytesPerSecond * 1000

/-- The near-peak file-rate ramp of claim C2: 0 at file-rate at most half the
peak, 1 at or above 0.8 of the peak, linear in between. -/
def nearMaxFpsSpec (s : ProgressInfo) : ℚ :=
  qBound 0 ((s._fileProgress._progressPerSec - 1/2 * s._maxFilesPerSecond)
      / ((4/5 - 1/2) * s._maxFilesPerSecond)) 1

/-- The slow-transfer ramp of claim C2: 1 at byte-rate at most 0.01 of the
peak, 0 at or above 0.1 of the peak, linear in between. -/
def slowTransferSpec (s : ProgressInfo) : ℚ :=
  1 - qBound 0 ((s._sizeProgress._progressPerSec - 1/100 * s._maxBytesPerSecond)
      / ((1/10 - 1/100) * s._maxBytesPerSecond)) 1

/-- The blend weight of claim C2. -/
def beOptimisticSpec (s : ProgressInfo) : ℚ :=
  nearMaxFpsSpec s * slowTransferSpec s

/-- The blended ETA exactly as claim C2 words it (untruncated optimistic
term). -/
def blendedEtaSpec (s : ProgressInfo) : ℚ :=
  (1 - beOptimisticSpec s) * (s._sizeProgress.estimates).estimatedEta
    + beOptimisticSpec s * optimisticEtaSpec s

/-- Claim C7's reading of a directory operation that is a real create or
remove: the instructions that create or delete an entry. -/
def isCreateOrRemoveOp : CSyncInstruction → Bool
  | CSyncInstruction.CSYNC_INSTRUCTION_NEW => true
  | CSyncInstruction.CSYNC_INSTRUCTION_REMOVE => true
  | _ => false

/-- A plain 500-byte file about to be downloaded or uploaded. -/
def file500 : SyncFileItem :=
  { _file := "a", _size := 500, _isDirectory := false,
    _instruction := CSyncInstruction.CSYNC_INSTRUCTION_NEW, _affectedItems := 1 }

/-- A directory being renamed: a real operation, but neither a create nor a
remove. -/
def dirRenameItem : SyncFileItem :=
  { _file := "d", _size := 0, _isDirectory := true,
    _instruction := CSyncInstruction.CSYNC_INSTRUCTION_RENAME, _affectedItems := 1 }

/-- The aggregator right after planning one 500-byte file, before any timer
tick: the byte total is non-zero while both peak rates are still 0. -/
def sC1 : ProgressInfo := ProgressInfo.init.adjustTotalsForFile file500

/-- An aggregator mid-run: one remaining file, one remaining byte, current
file rate at its peak (3 files/s), byte rate at 0 with a peak of 1 byte/s, so
the blend weight is exactly 1. -/
def exC2 : ProgressInfo :=
  { _currentItems := [],
    _fileProgress := { _total := 1, _completed := 0, _prevCompleted := 0,
                       _progressPerSec := 3, _initialSmoothing := 0 },
    _sizeProgress := { _total := 1, _completed := 0, _prevCompleted := 0,
                       _progressPerSec := 0, _initialSmoothing := 0 },
    _totalSizeOfCompletedJobs := 0, _lastCompletedItem := SyncFileItem.empty,
    _maxFilesPerSecond := 3, _maxBytesPerSecond := 1 }

/-- A mid-ramp estimator state used to witness the tick equation. -/
def pC3 : Progress :=
  { _total := 10, _completed := 4, _prevCompleted := 1,
    _progressPerSec := 2, _initialSmoothing := 1/2 }

/-- The aggregator of the end-to-end scenario of the spec after planning
file500 and receiving a partial progress report of 250 bytes for it. -/
def sC6 : ProgressInfo := sC1.setProgressItem file500 250

theorem progressInv_applyOp (p : Progress) (op : ProgressOp) (h : ProgressInv p) :
    ProgressInv (applyOp p op) := by
  cases op with
  | setTotal amount => exact ⟨le_trans h.1 (Nat.le_add_right _ _), h.2⟩
  | setCompleted n =>
      exact ⟨Nat.min_le_right _ _, Nat.min_le_right _ _⟩
  | tick => exact ⟨h.1, Nat.le_refl _⟩

theorem progressInv_runOps (p : Progress) (ops : List ProgressOp) (h : ProgressInv p) :
    ProgressInv (runOps p ops) := by
  induction ops generalizing p with
  | nil => exact h
  | cons op rest ih => exact ih (applyOp p op) (progressInv_applyOp p op h)

/-- C3: one tick of a rate estimator (Progress::update) replaces the smoothed
rate by w * old rate + (1 - w) * (completed - previous completed), where the
weight w = 0.9 * (1 - ramp) is computed from the ramp value current at that
tick; the ramp is multiplied by 0.7; afterwards previous-completed equals
completed; and the ramp factor starts at 1.0 in the initial estimator state. -/
theorem c3_update_tick (p : Progress) (h : p._prevCompleted ≤ p._completed) :
    p.update._progressPerSec
        = 9/10 * (1 - p._initialSmoothing) * p._progressPerSec
          + (1 - 9/10 * (1 - p._initialSmoothing))
            * ((p._completed : ℚ) - (p._prevCompleted : ℚ))
      ∧ p.update._initialSmoothing = p._initialSmoothing * (7/10)
      ∧ p.update._prevCompleted = p._completed
      ∧ Progress.init._initialSmoothing = 1 := by
  refine ⟨?_, rfl, rfl, rfl⟩
  show 9/10 * (1 - p._initialSmoothing) * p._progressPerSec
      + (1 - 9/10 * (1 - p._initialSmoothing)) * ((p._completed - p._prevCompleted : Nat) : ℚ)
    = _
  rw [Nat.cast_sub h]

/-- Witness for C3 at the concrete mid-ramp state pC3. -/
theorem c3_update_tick_witness :
    pC3._prevCompleted ≤ pC3._completed
      ∧ (pC3.update._progressPerSec
            = 9/10 * (1 - pC3._initialSmoothing) * pC3._progressPerSec
              + (1 - 9/10 * (1 - pC3._initialSmoothing))
                * ((pC3._completed : ℚ) - (pC3._prevCompleted : ℚ))
          ∧ pC3.update._initialSmoothing = pC3._initialSmoothing * (7/10)
          ∧ pC3.update._prevCompleted = pC3._completed
          ∧ Progress.init._initialSmoothing = 1) :=
  ⟨by decide, c3_update_tick pC3 (by decide)⟩

/-- C4: Progress::setCompleted stores min(n, total) as the completed value and
clamps the stored previous-completed to at most the new completed, and the
invariant completed at most total, previous-completed at most completed, is
preserved by every sequence of setTotal/setCompleted/tick operations, so the
tick delta completed - previous-completed is never negative. -/
theorem c4_setCompleted_clamps (p : Progress) (n : Nat) (ops : List ProgressOp)
    (h : ProgressInv p) :
    (p.setCompleted n)._completed = min n p._total
      ∧ (p.setCompleted n)._prevCompleted ≤ (p.setCompleted n)._completed
      ∧ ProgressInv (runOps p ops) :=
  ⟨rfl, Nat.min_le_right _ _, progressInv_runOps p ops h⟩

/-- Witness for C4: a concrete operation sequence from the initial estimator. -/
theorem c4_setCompleted_clamps_witness :
    ProgressInv Progress.init
      ∧ ((Progress.init.setCompleted 5)._completed = min 5 Progress.init._total
          ∧ (Progress.init.setCompleted 5)._prevCompleted
              ≤ (Progress.init.setCompleted 5)._completed
          ∧ ProgressInv (runOps Progress.init
              [ProgressOp.setTotal 10, ProgressOp.setCompleted 7,
               ProgressOp.tick, ProgressOp.setCompleted 12])) :=
  ⟨⟨by decide, by decide⟩,
    c4_setCompleted_clamps Progress.init 5
      [ProgressOp.setTotal 10, ProgressOp.setCompleted 7,
       ProgressOp.tick, ProgressOp.setCompleted 12] ⟨by decide, by decide⟩⟩

/-- C5: Progress::estimates reports the smoothed rate as the bandwidth, an ETA
of (total - completed) / rate * 1000 when the smoothed rate is non-zero, and
exactly 0 (the unknown convention) when the smoothed rate is 0. -/
theorem c5_estimates_eta (p : Progress) :
    (p.estimates).estimatedBandwidth = p._progressPerSec
      ∧ (p._progressPerSec = 0 → (p.estimates).estimatedEta = 0)
      ∧ (p._progressPerSec ≠ 0 →
          (p.estimates).estimatedEta
            = ((p._total - p._completed : Nat) : ℚ) / p._progressPerSec * 1000) := by
  refine ⟨rfl, fun h => ?_, fun h => ?_⟩ <;> simp [Progress.estimates, h]

/-- Witness for C5 on a running estimator and on the fresh zero-rate one. -/
theorem c5_estimates_eta_witness :
    pC3._progressPerSec ≠ 0
      ∧ (pC3.estimates).estimatedEta
          = ((pC3._total - pC3._completed : Nat) : ℚ) / pC3._progressPerSec * 1000
      ∧ Progress.init._progressPerSec = 0
      ∧ (Progress.init.estimates).estimatedEta = 0 :=
  ⟨by norm_num [pC3], (c5_estimates_eta pC3).2.2 (by norm_num [pC3]),
    rfl, (c5_estimates_eta Progress.init).2.1 rfl⟩

/-- C7 counterexample: adjustTotalsForFile increments the file total for a
directory whose planned operation is a rename, which is a real operation but
neither a create nor a remove; so the file total does not grow only for
create/remove directory operations, refuting the claim as stated. -/
theorem c7_adjustTotals_counterexample :
    dirRenameItem._isDirectory = true
      ∧ isCreateOrRemoveOp dirRenameItem._instruction = false
      ∧ (ProgressInfo.init.adjustTotalsForFile dirRenameItem)._fileProgress._total
          = ProgressInfo.init._fileProgress._total + 1 := by
  refine ⟨rfl, rfl, ?_⟩
  decide

/-- C7 (amended): adjustTotalsForFile increases the file total by 1 for every
non-directory item and for every directory item whose instruction is not the
no-op instruction CSYNC_INSTRUCTION_NONE (not only creates/removes), and it
increases the byte total by the item size exactly when the item is
size-dependent, so directories and no-op items never contribute to the byte
total. -/
theorem c7_adjustTotals (s : ProgressInfo) (item : SyncFileItem) :
    (s.adjustTotalsForFile item)._fileProgress._total
        = s._fileProgress._total
          + (if item._isDirectory = false
                ∨ item._instruction ≠ CSyncInstruction.CSYNC_INSTRUCTION_NONE
             then 1 else 0)
      ∧ (s.adjustTotalsForFile item)._sizeProgress._total
        = s._sizeProgress._total + (if isSizeDependent item then item._size else 0) := by
  cases hdir : item._isDirectory with
  | false =>
      cases hsd : isSizeDependent item with
      | false =>
          constructor <;> simp [ProgressInfo.adjustTotalsForFile, hdir, hsd]
      | true =>
          constructor <;> simp [ProgressInfo.adjustTotalsForFile, hdir, hsd]
  | true =>
      have hsd : isSizeDependent item = false := by
        simp [isSizeDependent, hdir]
      by_cases hni : item._instruction = CSyncInstruction.CSYNC_INSTRUCTION_NONE
      · constructor <;> simp [ProgressInfo.adjustTotalsForFile, hdir, hsd, hni]
      · constructor <;> simp [ProgressInfo.adjustTotalsForFile, hdir, hsd, hni]

/-- C8: every call to setProgressItem clears the cached last-completed item to
the empty value and leaves the file-count estimator's total and completed
counters unchanged. -/
theorem c8_setProgressItem_effects (s : ProgressInfo) (item : SyncFileItem)
    (completed : Nat) :
    (s.setProgressItem item completed)._lastCompletedItem = SyncFileItem.empty
      ∧ (s.setProgressItem item completed)._fileProgress._total = s._fileProgress._total
      ∧ (s.setProgressItem item completed)._fileProgress._completed
          = s._fileProgress._completed :=
  ⟨rfl, rfl, rfl⟩

/-- C9: ProgressDispatcher::setProgressInfo drops the snapshot entirely when
the folder key is empty (no delivery to any observer, no state change: the
embedding is a pure function of the observer list) and otherwise forwards the
pair to every registered observer in registration order. -/
theorem c9_setProgressInfo_filter {α : Type} (observers : List α)
    (folder : String) (progress : ProgressInfo) :
    (folder.isEmpty = true →
        ProgressDispatcher.setProgressInfo observers folder progress = [])
      ∧ (folder.isEmpty = false →
          ProgressDispatcher.setProgressInfo observers folder progress
            = observers.map (fun o => (o, folder, progress))) := by
  constructor <;> intro h <;> simp [ProgressDispatcher.setProgressInfo, h]

/-- Witness for C9: the empty key delivers nothing, a real key reaches both
registered observers in order. -/
theorem c9_setProgressInfo_filter_witness :
    "".isEmpty = true
      ∧ ProgressDispatcher.setProgressInfo [0, 1] ("") ProgressInfo.init = []
      ∧ ("alice").isEmpty = false
      ∧ ProgressDispatcher.setProgressInfo [0, 1] ("alice") ProgressInfo.init
          = [(0, "alice", ProgressInfo.init), (1, "alice", ProgressInfo.init)] :=
  ⟨rfl,
    (c9_setProgressInfo_filter [0, 1] ("") ProgressInfo.init).1 rfl,
    rfl,
    by rw [(c9_setProgressInfo_filter [0, 1] ("alice") ProgressInfo.init).2 rfl]; rfl⟩

/-- C10: for a path with no in-flight work unit, fileProgress answers the
default estimates, bandwidth 0 and ETA 0 (the unknown convention); the lookup
goes through the const accessor, and the embedding is a pure function, so the
aggregator state is untouched. -/
theorem c10_fileProgress_default (s : ProgressInfo) (item : SyncFileItem)
    (h : List.lookup item._file s._currentItems = none) :
    s.fileProgress item = { estimatedBandwidth := 0, estimatedEta := 0 } := by
  simp [ProgressInfo.fileProgress, h, ProgressItem.init, Progress.init,
    Progress.estimates]

/-- Witness for C10: a fresh aggregator holds no in-flight entry for file500. -/
theorem c10_fileProgress_default_witness :
    List.lookup file500._file ProgressInfo.init._currentItems = none
      ∧ ProgressInfo.init.fileProgress file500
          = { estimatedBandwidth := 0, estimatedEta := 0 } :=
  ⟨rfl, c10_fileProgress_default ProgressInfo.init file500 rfl⟩

/-- C6: setProgressComplete removes the item's entry from the in-flight set,
raises the completed-file counter by the item's affected-item count clamped at
the file total, folds the item's full size into the finalized-completed-size
accumulator exactly once if and only if the item is size-dependent, recomputes
the run-level completed bytes as that accumulator plus the sum of completed
bytes of the in-flight size-dependent items, and overwrites the last-completed
item with this item.  The hypothesis states that the recomputed sum does not
exceed the byte total, which is where the source's clamp is inactive. -/
theorem c6_setProgressComplete_effects (s : ProgressInfo) (item : SyncFileItem)
    (h : s._totalSizeOfCompletedJobs + (if isSizeDependent item then item._size else 0)
           + inFlightCompleted (removeKey s._currentItems item._file)
         ≤ s._sizeProgress._total) :
    (s.setProgressComplete item)._currentItems = removeKey s._currentItems item._file
      ∧ (s.setProgressComplete item)._fileProgress._completed
          = min (s._fileProgress._completed + item._affectedItems) s._fileProgress._total
      ∧ (s.setProgressComplete item)._totalSizeOfCompletedJobs
          = s._totalSizeOfCompletedJobs + (if isSizeDependent item then item._size else 0)
      ∧ (s.setProgressComplete item)._sizeProgress._completed
          = (s.setProgressComplete item)._totalSizeOfCompletedJobs
            + inFlightCompleted ((s.setProgressComplete item)._currentItems)
      ∧ (s.setProgressComplete item)._lastCompletedItem = item := by
  cases hsd : isSizeDependent item with
  | false =>
      simp only [ProgressInfo.setProgressComplete, ProgressInfo.recomputeCompletedSize,
        Progress.setCompleted, hsd, Bool.false_eq_true, if_false] at h ⊢
      exact ⟨trivial, trivial, by omega, by omega, trivial⟩
  | true =>
      simp only [ProgressInfo.setProgressComplete, ProgressInfo.recomputeCompletedSize,
        Progress.setCompleted, hsd, if_true] at h ⊢
      exact ⟨trivial, trivial, trivial, by omega, trivial⟩

/-- Witness for C6: the end-to-end scenario of the spec: one 500-byte file is
planned, reports 250 bytes of partial progress, then completes; the
completed-file counter reaches min(0+1, 1) = 1, completed bytes reach 500, the
in-flight set empties and the item becomes the last completed one. -/
theorem c6_setProgressComplete_effects_witness :
    sC6._totalSizeOfCompletedJobs + (if isSizeDependent file500 then file500._size else 0)
        + inFlightCompleted (removeKey sC6._currentItems file500._file)
      ≤ sC6._sizeProgress._total
      ∧ ((sC6.setProgressComplete file500)._currentItems
            = removeKey sC6._currentItems file500._file
          ∧ (sC6.setProgressComplete file500)._fileProgress._completed
              = min (sC6._fileProgress._completed + file500._affectedItems)
                  sC6._fileProgress._total
          ∧ (sC6.setProgressComplete file500)._totalSizeOfCompletedJobs
              = sC6._totalSizeOfCompletedJobs
                + (if isSizeDependent file500 then file500._size else 0)
          ∧ (sC6.setProgressComplete file500)._sizeProgress._completed
              = (sC6.setProgressComplete file500)._totalSizeOfCompletedJobs
                + inFlightCompleted ((sC6.setProgressComplete file500)._currentItems)
          ∧ (sC6.setProgressComplete file500)._lastCompletedItem = file500) :=
  ⟨by decide, c6_setProgressComplete_effects sC6 file500 (by decide)⟩

/-- C1 (evaluating the code at the failing input): after planning a single
500-byte file and before any timer tick, the byte total is 500 while both peak
rates are still 0, yet totalProgress reaches the divisions by
_maxFilesPerSecond and _maxBytesPerSecond unconditionally: the computation hits
a division with zero divisor (the embedding yields none) instead of
short-circuiting the optimistic-ETA terms to the unknown value 0. -/
theorem c1_totalProgress_zero_rate_divide :
    sC1._sizeProgress._total = 500
      ∧ sC1._maxFilesPerSecond = 0
      ∧ sC1._maxBytesPerSecond = 0
      ∧ sC1.totalProgress = none := by
  refine ⟨by decide, rfl, rfl, ?_⟩
  decide

/-- C2 counterexample: at the concrete state exC2 the blend weight is exactly
1 and the code stores the optimistic ETA into a quint64, truncating
1000/3 + 1000 to 1333, so totalProgress returns an ETA of 1333 while the
claim's untruncated formula gives 4000/3: the claim as stated fails. -/
theorem c2_blend_counterexample :
    exC2.totalProgress = some { estimatedBandwidth := 0, estimatedEta := 1333 }
      ∧ blendedEtaSpec exC2 = 4000/3
      ∧ (1333 : ℚ) ≠ 4000/3 := by
  refine ⟨?_, ?_, by norm_num⟩
  · simp only [ProgressInfo.totalProgress, exC2, qdiv, Progress.estimates,
      Progress.remaining, qBound, truncToNat]
    norm_num
    rfl
  · simp only [blendedEtaSpec, beOptimisticSpec, nearMaxFpsSpec, slowTransferSpec,
      optimisticEtaSpec, exC2, Progress.estimates, Progress.remaining, qBound]
    norm_num

/-- C2 (amended): totalProgress returns the file-based estimate unmodified
whenever the byte total is 0; otherwise, when both peak rates are positive, it
returns the byte estimator's estimate with its ETA replaced by
(1 - beOptimistic) * byteBasedEta + beOptimistic * optimisticEta, where
optimisticEta is the claim's remainingFiles / maxFilesPerSecond * 1000 +
remainingBytes / maxBytesPerSecond * 1000 truncated to a whole number of
milliseconds by the assignment to a quint64 local, the ramps and the blend
weight are exactly the claim's, and the reported bandwidth is the byte-rate
estimator's smoothed rate. -/
theorem c2_totalProgress_blend (s : ProgressInfo) :
    (s._sizeProgress._total = 0 → s.totalProgress = some (s._fileProgress.estimates))
      ∧ (s._sizeProgress._total ≠ 0 →
          0 < s._maxFilesPerSecond → 0 < s._maxBytesPerSecond →
          s.totalProgress = some
            { estimatedBandwidth := s._sizeProgress._progressPerSec,
              estimatedEta :=
                (1 - beOptimisticSpec s) * (s._sizeProgress.estimates).estimatedEta
                  + beOptimisticSpec s * (truncToNat (optimisticEtaSpec s) : ℚ) }) := by
  constructor
  · intro h
    simp [ProgressInfo.totalProgress, h]
  · intro h0 hf hb
    have hf' : s._maxFilesPerSecond ≠ 0 := ne_of_gt hf
    have hb' : s._maxBytesPerSecond ≠ 0 := ne_of_gt hb
    have h3 : ((4:ℚ)/5 - 1/2) * s._maxFilesPerSecond ≠ 0 :=
      mul_ne_zero (by norm_num) hf'
    have h4 : ((1:ℚ)/10 - 1/100) * s._maxBytesPerSecond ≠ 0 :=
      mul_ne_zero (by norm_num) hb'
    simp only [ProgressInfo.totalProgress, qdiv, if_neg h0, if_neg hf', if_neg hb',
      if_neg h3, if_neg h4, Option.some_bind, beOptimisticSpec, nearMaxFpsSpec,
      slowTransferSpec, optimisticEtaSpec]
    rfl

/-- Witness for C2: the zero-byte-total branch at the fresh aggregator and the
blended branch at exC2. -/
theorem c2_totalProgress_blend_witness :
    ProgressInfo.init._sizeProgress._total = 0
      ∧ ProgressInfo.init.totalProgress = some (ProgressInfo.init._fileProgress.estimates)
      ∧ exC2._sizeProgress._total ≠ 0
      ∧ 0 < exC2._maxFilesPerSecond
      ∧ 0 < exC2._maxBytesPerSecond
      ∧ exC2.totalProgress = some
          { estimatedBandwidth := exC2._sizeProgress._progressPerSec,
            estimatedEta :=
              (1 - beOptimisticSpec exC2) * (exC2._sizeProgress.estimates).estimatedEta
                + beOptimisticSpec exC2 * (truncToNat (optimisticEtaSpec exC2) : ℚ) } :=
  ⟨rfl, (c2_totalProgress_blend ProgressInfo.init).1 rfl,
    by decide, by norm_num [exC2], by norm_num [exC2],
    (c2_totalProgress_blend exC2).2 (by decide) (by norm_num [exC2]) (by norm_num [exC2])⟩
